import Mathlib

/-!
Verification development for `src/tools/transfer_asf_to_its_live.py`
(nasa-jpl/its-live).

The script transfers granules produced by HyP3 autoRIFT jobs from the ASF
staging bucket into the ITS_LIVE archival bucket.  Its components:

* the function point_to_prefix — pure spatial binning of a granule
  centerpoint into a 10°×10° cell directory name;
* `ASFTransfer.object_exists` — existence probe that swallows every
  `ClientError`;
* `ASFTransfer.copy_granule` — the per-job transfer task;
* `ASFTransfer.run` — the chunked orchestrator loop.

Numeric model: Python floats are embedded as `ℚ` (the script's arithmetic —
`abs`, division by 10, `np.trunc`, multiplication by 10 — is exact real
arithmetic at this scale; `ℚ` realises those operations exactly).

External collaborators (HyP3 job lookup, the fsspec/xarray metadata read,
boto3/S3) are embedded as an explicit environment of total or `Except`-valued
functions; exceptions escaping a Python call are `Except.error` values, and a
function that Python would let an exception propagate out of is a function
returning `Except`.
-/

/-! ## Spatial resolver: point_to_prefix (source lines 32–50) -/

/-- Python `np.trunc`: truncation toward zero (floor for nonnegative arguments,
negated floor of the negation otherwise). -/
def npTrunc (q : ℚ) : ℤ := if 0 ≤ q then ⌊q⌋ else -⌊-q⌋

/-- Source `int(10*np.trunc(np.abs(lat/10.0)))` — the raw (pre-clamp) latitude bin. -/
def latBinRaw (lat : ℚ) : ℤ := 10 * npTrunc |lat / 10|

/-- Source `if outlat == 90: outlat = 80` — polar clamp (source line 41). -/
def latBin (lat : ℚ) : ℤ := if latBinRaw lat = 90 then 80 else latBinRaw lat

/-- Source `int(10*np.trunc(np.abs(lon/10.0)))` — the raw (pre-clamp) longitude bin. -/
def lonBinRaw (lon : ℚ) : ℤ := 10 * npTrunc |lon / 10|

/-- Source `if outlon >= 180: outlon = 170` — dateline clamp (source line 46). -/
def lonBin (lon : ℚ) : ℤ := if 180 ≤ lonBinRaw lon then 170 else lonBinRaw lon

/-- Left zero-padding of a numeral string to width `w`, as Python's
`{:0wd}` format applies after any sign. -/
def zeroPad (w : ℕ) (s : String) : String :=
  String.mk (List.replicate (w - s.length) '0') ++ s

/-- Python `f'{n:0wd}'` for an `int`: zero-pad the magnitude, sign first. -/
def fmtInt (w : ℕ) (n : ℤ) : String :=
  if n < 0 then "-" ++ zeroPad (w - 1) (Nat.repr n.natAbs)
  else zeroPad w (Nat.repr n.natAbs)

/-- Python `s.startswith('/')`. -/
def startsWithSlash (s : String) : Bool := s.data.head? = some '/'

/-- Python `s.endswith('/')`. -/
def endsWithSlash (s : String) : Bool := s.data.getLast? = some '/'

/-- POSIX `os.path.join` for the two-argument case used by the script. -/
def osPathJoin (a b : String) : String :=
  if startsWithSlash b then b
  else if a = "" then b
  else if endsWithSlash a then a ++ b
  else a ++ "/" ++ b

/-- Source function point_to_prefix (dir_path, lat, lon), lines 32–50: directory
name such as `N78W124` for the granule centerpoint, joined onto `dir_path`. -/
def point_to_prefix (dir_path : String) (lat lon : ℚ) : String :=
  let NShemi_str : String := if 0 ≤ lat then "N" else "S"
  let EWhemi_str : String := if 0 ≤ lon then "E" else "W"
  let dirstring :=
    osPathJoin dir_path
      (NShemi_str ++ fmtInt 2 (latBin lat) ++ EWhemi_str ++ fmtInt 3 (lonBin lon))
  dirstring

/-! ## Data model: jobs, files, stores, collaborators

The HyP3 job-tracking service, the metadata reader and S3 are external
collaborators; they appear as an explicit environment (`Env`).  A Python
call that may raise is a function into `Except`; an exception escaping
`copy_granule` is an `Except.error` result of the whole task. -/

/-- Status of a HyP3 job (`job.running()` / `job.succeeded()` / failed). -/
inductive JobStatus where
  | running
  | succeeded
  | failed
deriving DecidableEq

/-- The `job.files[i]['s3']` record: source bucket and key. -/
structure S3Ref where
  bucket : String
  key : String
deriving DecidableEq

/-- One entry of `job.files`: url, filename and s3 location. -/
structure JobFile where
  url : String
  filename : String
  s3 : S3Ref
deriving DecidableEq

/-- A HyP3 job as seen through `hyp3.get_job_by_id`. -/
structure Job where
  id : String
  status : JobStatus
  files : List JobFile
deriving DecidableEq

/-- Textual rendering of a job in trace messages (`f'... {job} ...'`); the
`__repr__` belongs to the external hyp3_sdk, so the job is rendered by its
identifier.  No claim depends on the exact rendering. -/
def jobRepr (job : Job) : String := job.id

/-- Kinds of `botocore.exceptions.ClientError` that `bucket.Object(key).load()`
can raise. -/
inductive ClientErrorKind where
  | notFound
  | accessDenied
  | throttling
  | otherError
deriving DecidableEq

/-- An exception escaping a collaborator call inside `copy_granule`:
`hyp3.get_job_by_id` unreachable, `fsspec.open`/`xarray` failure,
`job.files[0]` on an empty list, or `bucket.copy` failure. -/
inductive InfraError where
  | jobLookup
  | streamOpen
  | indexError
  | copyFailed
deriving DecidableEq

/-- Destination-store state: association list from object key to content
(the first binding for a key is its content). -/
abbrev Store := List (String × String)

/-- Writing an object: later writes shadow earlier bindings. -/
def storePut (store : Store) (key content : String) : Store :=
  (key, content) :: store

/-- A boto3 `Bucket` handle: a name and the observable behaviour of
`bucket.Object(key).load()`. -/
structure S3Bucket where
  name : String
  load : String → Except ClientErrorKind Unit

/-- Source `ASFTransfer.object_exists` (lines 93–101): `load` the object,
return `False` on any `ClientError`, `True` otherwise. -/
def object_exists (bucket : S3Bucket) (key : String) : Bool :=
  match bucket.load key with
  | .error _ => false
  | .ok _ => true

/-- The bucket handle `boto3.resource('s3').Bucket(target_bucket)` over a
store state: `load` succeeds exactly on present keys and raises not-found
otherwise. -/
def bucketOf (store : Store) (name : String) : S3Bucket :=
  { name := name
    load := fun key =>
      if (store.lookup key).isSome then Except.ok () else Except.error ClientErrorKind.notFound }

/-- Store operations issued against the destination bucket by one task. -/
inductive StoreOp where
  | existsCheck (key : String)
  | copyOp (srcBucket srcKey targetKey : String)
deriving DecidableEq

/-- The configuration and external collaborators of `ASFTransfer`:
constructor arguments plus the observable behaviour of the HyP3 client,
the fsspec/xarray metadata read, and the source-object bytes. -/
structure Env where
  target_bucket : String
  target_bucket_dir : String
  getJob : String → Except InfraError Job
  readCenter : String → Except InfraError (ℚ × ℚ)
  srcContent : String → String → String
  copyErr : String → Option InfraError

/-- Source `f'{target_prefix}/{job.files[0]["filename"]}'` (line 127). -/
def targetKey (dir_path : String) (file : JobFile) (lat lon : ℚ) : String :=
  point_to_prefix dir_path lat lon ++ "/" ++ file.filename

/-- Source `ASFTransfer.copy_granule` (lines 103–143).  Returns the trace
messages, the resulting store state, and the store operations issued; an
`Except.error` is an exception escaping the task. -/
def copy_granule (env : Env) (store : Store) (job_id : String) :
    Except InfraError (List String × Store × List StoreOp) :=
  match env.getJob job_id with
  | .error e => .error e
  | .ok job =>
    let msgs := ["Processing " ++ jobRepr job]
    if job.status = JobStatus.running then
      .ok (msgs ++ ["WARNING: Job is still running! Skipping " ++ jobRepr job], store, [])
    else if job.status = JobStatus.succeeded then
      match job.files with
      | [] => .error InfraError.indexError
      | file :: _ =>
        match env.readCenter file.url with
        | .error e => .error e
        | .ok (lat, lon) =>
          let msgs := msgs ++
            ["Image center (lat, lon): (" ++ toString lat ++ ", " ++ toString lon ++ ")"]
          let source := file.s3
          let target_key := targetKey env.target_bucket_dir file lat lon
          let bucket := bucketOf store env.target_bucket
          if object_exists bucket target_key then
            .ok (msgs ++
                  ["WARNING: " ++ bucket.name ++ "/" ++ target_key ++
                    " already exists! skipping " ++ jobRepr job],
                 store, [StoreOp.existsCheck target_key])
          else
            match env.copyErr target_key with
            | some e => .error e
            | none =>
              .ok (msgs ++
                    ["Copying " ++ source.bucket ++ "/" ++ source.key ++ " to " ++
                      bucket.name ++ "/" ++ target_key],
                   storePut store target_key (env.srcContent source.bucket source.key),
                   [StoreOp.existsCheck target_key,
                    StoreOp.copyOp source.bucket source.key target_key])
    else
      .ok (msgs ++ ["WARNING: " ++ jobRepr job ++ " failed!"], store, [])

/-! ## Orchestrator (`ASFTransfer.run`, source lines 62–91)

The `while` loop slices `job_ids[start:start+num_tasks]` with
`num_tasks = min(chunks_to_copy, num_to_copy)` and advances by `num_tasks`;
`chunks` is that slicing.  `dask.compute(tasks, scheduler="processes")`
re-raises the first task exception, in which case no results are returned
for the chunk and the per-chunk logging loop is skipped; `computeChunk`
models this.  Parallel tasks of one chunk each observe the same starting
store snapshot; the trace-structure claims settled below do not depend on
the store state, so `run` is parameterised by one snapshot. -/

/-- One slicing step needs fuel because `chunks_to_copy ≤ 0` makes the
source loop spin forever; `l.length` fuel suffices for a positive chunk
size, which every theorem below assumes. -/
def chunksGo {α : Type} : ℕ → ℕ → List α → List (List α)
  | 0, _, _ => []
  | _ + 1, _, [] => []
  | fuel + 1, c, x :: xs => (x :: xs).take c :: chunksGo fuel c ((x :: xs).drop c)

/-- The chunk decomposition performed by the `while` loop of
`ASFTransfer.run`. -/
def chunks {α : Type} (c : ℕ) (l : List α) : List (List α) :=
  chunksGo l.length c l

/-- Model of `dask.compute` on the delayed tasks of one chunk: all traces if every
task returns, otherwise the first escaping exception and no results. -/
def computeChunk (env : Env) (store : Store) : List String → Except InfraError (List (List String))
  | [] => .ok []
  | job_id :: rest =>
    match copy_granule env store job_id with
    | .error e => .error e
    | .ok r =>
      match computeChunk env store rest with
      | .error e => .error e
      | .ok ts => .ok (r.1 :: ts)

/-- The chunk-by-chunk driver loop body of `ASFTransfer.run`. -/
def runChunks (env : Env) (store : Store) : List (List String) → Except InfraError (List (List (List String)))
  | [] => .ok []
  | c :: cs =>
    match computeChunk env store c with
    | .error e => .error e
    | .ok ts =>
      match runChunks env store cs with
      | .error e => .error e
      | .ok rest => .ok (ts :: rest)

/-- Source `ASFTransfer.run`: slice the job-id list into chunks and compute each
chunk, collecting the per-task traces that the source logs. -/
def run (env : Env) (store : Store) (job_ids : List String) (chunks_to_copy : ℕ) :
    Except InfraError (List (List (List String))) :=
  runChunks env store (chunks chunks_to_copy job_ids)

/-! ## Evaluation lemmas for the spatial resolver -/

lemma npTrunc_abs (q : ℚ) : npTrunc |q| = ⌊|q|⌋ := by
  rw [npTrunc, if_pos (abs_nonneg q)]

lemma latBin_90 : latBin (90 : ℚ) = 80 := by
  norm_num [latBin, latBinRaw, npTrunc, abs_of_nonneg, abs_of_nonpos]

lemma latBin_neg90 : latBin (-90 : ℚ) = 80 := by
  norm_num [latBin, latBinRaw, npTrunc, abs_of_nonneg, abs_of_nonpos]

lemma latBin_0 : latBin (0 : ℚ) = 0 := by
  norm_num [latBin, latBinRaw, npTrunc, abs_of_nonneg, abs_of_nonpos]

lemma lonBin_0 : lonBin (0 : ℚ) = 0 := by
  norm_num [lonBin, lonBinRaw, npTrunc, abs_of_nonneg, abs_of_nonpos]

lemma lonBin_180 : lonBin (180 : ℚ) = 170 := by
  norm_num [lonBin, lonBinRaw, npTrunc, abs_of_nonneg, abs_of_nonpos]

lemma lonBin_neg180 : lonBin (-180 : ℚ) = 170 := by
  norm_num [lonBin, lonBinRaw, npTrunc, abs_of_nonneg, abs_of_nonpos]

lemma latBin_eg : latBin (783/10 : ℚ) = 70 := by
  norm_num [latBin, latBinRaw, npTrunc, abs_of_nonneg, abs_of_nonpos]

lemma lonBin_eg : lonBin (-(1237/10) : ℚ) = 120 := by
  norm_num [lonBin, lonBinRaw, npTrunc, abs_of_nonneg, abs_of_nonpos]

lemma latBinRaw_nonneg (lat : ℚ) : 0 ≤ latBinRaw lat := by
  rw [latBinRaw, npTrunc_abs]
  have := Int.floor_nonneg.mpr (abs_nonneg (lat / 10))
  omega

lemma lonBinRaw_nonneg (lon : ℚ) : 0 ≤ lonBinRaw lon := by
  rw [lonBinRaw, npTrunc_abs]
  have := Int.floor_nonneg.mpr (abs_nonneg (lon / 10))
  omega

lemma latBinRaw_le (lat : ℚ) (h1 : -90 ≤ lat) (h2 : lat ≤ 90) : latBinRaw lat ≤ 90 := by
  rw [latBinRaw, npTrunc_abs]
  have habs : |lat / 10| ≤ 9 := by
    rw [abs_le]
    constructor
    · rw [le_div_iff₀ (show (0:ℚ) < 10 by norm_num)]; linarith
    · rw [div_le_iff₀ (show (0:ℚ) < 10 by norm_num)]; linarith
  have hfl : ⌊|lat / 10|⌋ ≤ ⌊(9 : ℚ)⌋ := Int.floor_le_floor habs
  have h9 : ⌊(9 : ℚ)⌋ = 9 := by norm_num
  omega

lemma lonBinRaw_le (lon : ℚ) (h1 : -180 ≤ lon) (h2 : lon ≤ 180) : lonBinRaw lon ≤ 180 := by
  rw [lonBinRaw, npTrunc_abs]
  have habs : |lon / 10| ≤ 18 := by
    rw [abs_le]
    constructor
    · rw [le_div_iff₀ (show (0:ℚ) < 10 by norm_num)]; linarith
    · rw [div_le_iff₀ (show (0:ℚ) < 10 by norm_num)]; linarith
  have hfl : ⌊|lon / 10|⌋ ≤ ⌊(18 : ℚ)⌋ := Int.floor_le_floor habs
  have h18 : ⌊(18 : ℚ)⌋ = 18 := by norm_num
  omega

lemma osPathJoin_plain (a b : String) (ha1 : a ≠ "") (ha2 : endsWithSlash a = false)
    (hb : startsWithSlash b = false) : osPathJoin a b = a ++ "/" ++ b := by
  rw [osPathJoin, hb, if_neg (by simp), if_neg ha1, ha2, if_neg (by simp)]

/-- C10: `object_exists` returns `False` whenever the underlying load raises
any `ClientError`, regardless of its kind, and `True` otherwise; it never
propagates a `ClientError` (it is a total `Bool`-valued function), and a
non-not-found client error is indistinguishable from the object being
absent. -/
theorem object_exists_swallows_client_errors (bucket : S3Bucket) (key : String) :
    (∀ e : ClientErrorKind, bucket.load key = .error e → object_exists bucket key = false) ∧
    (∀ u : Unit, bucket.load key = .ok u → object_exists bucket key = true) ∧
    (∀ e1 e2 : ClientErrorKind,
      object_exists { name := bucket.name, load := fun _ => Except.error e1 } key =
        object_exists { name := bucket.name, load := fun _ => Except.error e2 } key) := by
  refine ⟨?_, ?_, ?_⟩
  · intro e he
    rw [object_exists, he]
  · intro u hu
    rw [object_exists, hu]
  · intro e1 e2
    rfl

/-- Witness for C10 at a concrete bucket whose load raises an
access-denied client error, and one whose load succeeds. -/
theorem object_exists_swallows_client_errors_witness :
    object_exists ⟨"tb", fun _ => Except.error ClientErrorKind.accessDenied⟩ "k" = false ∧
    object_exists ⟨"tb", fun _ => Except.ok ()⟩ "k" = true :=
  ⟨(object_exists_swallows_client_errors
      ⟨"tb", fun _ => Except.error ClientErrorKind.accessDenied⟩ "k").1
        ClientErrorKind.accessDenied rfl,
   (object_exists_swallows_client_errors ⟨"tb", fun _ => Except.ok ()⟩ "k").2.1 () rfl⟩

/-- C2: for latitudes in `[-90, 90]` and longitudes in `[-180, 180]` the
resolver bins each coordinate as truncation of `abs(value)/10` toward zero
times 10 — an integer in `[0, 90]` (latitude) resp. `[0, 180]` (longitude)
before clamping — and `resolve(base, 78.3, -123.7)` is `base ++ "/N70W120"`. -/
theorem point_to_prefix_binning (lat lon : ℚ) (base : String)
    (hlat1 : -90 ≤ lat) (hlat2 : lat ≤ 90) (hlon1 : -180 ≤ lon) (hlon2 : lon ≤ 180)
    (hb1 : base ≠ "") (hb2 : endsWithSlash base = false) :
    latBinRaw lat = 10 * npTrunc (|lat| / 10) ∧
    0 ≤ latBinRaw lat ∧ latBinRaw lat ≤ 90 ∧
    lonBinRaw lon = 10 * npTrunc (|lon| / 10) ∧
    0 ≤ lonBinRaw lon ∧ lonBinRaw lon ≤ 180 ∧
    point_to_prefix base (783/10 : ℚ) (-(1237/10) : ℚ) = base ++ "/N70W120" := by
  refine ⟨?_, latBinRaw_nonneg lat, latBinRaw_le lat hlat1 hlat2,
          ?_, lonBinRaw_nonneg lon, lonBinRaw_le lon hlon1 hlon2, ?_⟩
  · rw [latBinRaw, abs_div, abs_of_nonneg (show (0:ℚ) ≤ 10 by norm_num)]
  · rw [lonBinRaw, abs_div, abs_of_nonneg (show (0:ℚ) ≤ 10 by norm_num)]
  · simp only [ point_to_prefix, latBin_eg, lonBin_eg]
    rw [if_pos (show (0:ℚ) ≤ 783/10 by norm_num),
        if_neg (show ¬ (0:ℚ) ≤ -(1237/10) by norm_num)]
    have hcell : "N" ++ fmtInt 2 (70 : ℤ) ++ "W" ++ fmtInt 3 (120 : ℤ) = "N70W120" := by decide
    rw [hcell, osPathJoin_plain base "N70W120" hb1 hb2 (by decide),
        String.append_assoc]
    have hsl : ("/" : String) ++ "N70W120" = "/N70W120" := by decide
    rw [hsl]

/-- Witness for C2 at latitude 12.3, longitude -45.6 and base "d". -/
theorem point_to_prefix_binning_witness :
    latBinRaw (123/10 : ℚ) = 10 * npTrunc (|(123/10 : ℚ)| / 10) ∧
    0 ≤ latBinRaw (123/10 : ℚ) ∧ latBinRaw (123/10 : ℚ) ≤ 90 ∧
    lonBinRaw (-(456/10) : ℚ) = 10 * npTrunc (|(-(456/10) : ℚ)| / 10) ∧
    0 ≤ lonBinRaw (-(456/10) : ℚ) ∧ lonBinRaw (-(456/10) : ℚ) ≤ 180 ∧
    point_to_prefix "d" (783/10 : ℚ) (-(1237/10) : ℚ) = "d" ++ "/N70W120" :=
  point_to_prefix_binning (123/10 : ℚ) (-(456/10) : ℚ) "d"
    (by norm_num) (by norm_num) (by norm_num) (by norm_num)
    (by decide) (by decide)

/-- C3: at the domain boundaries the bins are clamped — latitude 90 falls in
the 80 bin, latitude -90 in the `S80` cell, longitude 180 and -180 in the
170 bin — and any longitude bin at or above 180 is clamped to 170. -/
theorem point_to_prefix_boundary_clamps (lon : ℚ) (hlon : 180 ≤ lonBinRaw lon) :
    point_to_prefix "b" (90 : ℚ) 0 = "b/N80E000" ∧
    point_to_prefix "b" (-90 : ℚ) 0 = "b/S80E000" ∧
    point_to_prefix "b" 0 (180 : ℚ) = "b/N00E170" ∧
    point_to_prefix "b" 0 (-180 : ℚ) = "b/N00W170" ∧
    latBin (90 : ℚ) = 80 ∧ latBin (-90 : ℚ) = 80 ∧
    lonBin (180 : ℚ) = 170 ∧ lonBin (-180 : ℚ) = 170 ∧
    lonBin lon = 170 := by
  refine ⟨?_, ?_, ?_, ?_, latBin_90, latBin_neg90, lonBin_180, lonBin_neg180, ?_⟩
  · simp only [ point_to_prefix, latBin_90, lonBin_0]
    rw [if_pos (show (0:ℚ) ≤ 90 by norm_num), if_pos (show (0:ℚ) ≤ 0 by norm_num)]
    decide
  · simp only [ point_to_prefix, latBin_neg90, lonBin_0]
    rw [if_neg (show ¬ (0:ℚ) ≤ -90 by norm_num), if_pos (show (0:ℚ) ≤ 0 by norm_num)]
    decide
  · simp only [ point_to_prefix, latBin_0, lonBin_180]
    rw [if_pos (show (0:ℚ) ≤ 0 by norm_num), if_pos (show (0:ℚ) ≤ 180 by norm_num)]
    decide
  · simp only [ point_to_prefix, latBin_0, lonBin_neg180]
    rw [if_pos (show (0:ℚ) ≤ 0 by norm_num), if_neg (show ¬ (0:ℚ) ≤ -180 by norm_num)]
    decide
  · rw [lonBin, if_pos hlon]

/-- Witness for C3 at longitude 200, whose raw bin 200 exceeds 180. -/
theorem point_to_prefix_boundary_clamps_witness :
    point_to_prefix "b" (90 : ℚ) 0 = "b/N80E000" ∧
    point_to_prefix "b" (-90 : ℚ) 0 = "b/S80E000" ∧
    point_to_prefix "b" 0 (180 : ℚ) = "b/N00E170" ∧
    point_to_prefix "b" 0 (-180 : ℚ) = "b/N00W170" ∧
    latBin (90 : ℚ) = 80 ∧ latBin (-90 : ℚ) = 80 ∧
    lonBin (180 : ℚ) = 170 ∧ lonBin (-180 : ℚ) = 170 ∧
    lonBin (200 : ℚ) = 170 :=
  point_to_prefix_boundary_clamps (200 : ℚ)
    (by norm_num [lonBinRaw, npTrunc, abs_of_nonneg])

/-! ## Cell-name pattern for C4 -/

/-- Two decimal digit characters. -/
def isDigitPair (s : String) : Bool :=
  match s.data with
  | [a, b] => a.isDigit && b.isDigit
  | _ => false

/-- Three decimal digit characters. -/
def isDigitTriple (s : String) : Bool :=
  match s.data with
  | [a, b, c] => a.isDigit && b.isDigit && c.isDigit
  | _ => false

/-- The regular expression `[NS]\d\x7b2\x7d[EW]\d\x7b3\x7d` as a predicate on the
seven characters of a cell name. -/
def isCellString (s : String) : Bool :=
  match s.data with
  | [hc, a, b, ec, c, d, e] =>
    (hc == 'N' || hc == 'S') && a.isDigit && b.isDigit &&
      (ec == 'E' || ec == 'W') && c.isDigit && d.isDigit && e.isDigit
  | _ => false

lemma zeroPad2_digits : ∀ n : ℕ, n < 100 → isDigitPair (zeroPad 2 (Nat.repr n)) = true := by
  decide

set_option maxRecDepth 4000 in
lemma zeroPad3_digits : ∀ n : ℕ, n < 1000 → isDigitTriple (zeroPad 3 (Nat.repr n)) = true := by
  decide

lemma isDigitPair_elim {s : String} (h : isDigitPair s = true) :
    ∃ a b, s.data = [a, b] ∧ a.isDigit = true ∧ b.isDigit = true := by
  unfold isDigitPair at h
  rcases hs : s.data with _ | ⟨a, _ | ⟨b, _ | ⟨c, t⟩⟩⟩ <;> rw [hs] at h <;>
    simp only [Bool.and_eq_true] at h
  · cases h
  · cases h
  · exact ⟨a, b, rfl, h.1, h.2⟩
  · cases h

lemma isDigitTriple_elim {s : String} (h : isDigitTriple s = true) :
    ∃ a b c, s.data = [a, b, c] ∧ a.isDigit = true ∧ b.isDigit = true ∧ c.isDigit = true := by
  unfold isDigitTriple at h
  rcases hs : s.data with _ | ⟨a, _ | ⟨b, _ | ⟨c, _ | ⟨d, t⟩⟩⟩⟩ <;> rw [hs] at h <;>
    simp only [Bool.and_eq_true] at h
  · cases h
  · cases h
  · cases h
  · exact ⟨a, b, c, rfl, h.1.1, h.1.2, h.2⟩
  · cases h

lemma fmtInt_two_digits {n : ℤ} (h0 : 0 ≤ n) (h : n < 100) :
    ∃ a b, (fmtInt 2 n).data = [a, b] ∧ a.isDigit = true ∧ b.isDigit = true := by
  rw [fmtInt, if_neg (not_lt.mpr h0)]
  exact isDigitPair_elim (zeroPad2_digits n.natAbs (by omega))

lemma fmtInt_three_digits {n : ℤ} (h0 : 0 ≤ n) (h : n < 1000) :
    ∃ a b c, (fmtInt 3 n).data = [a, b, c] ∧
      a.isDigit = true ∧ b.isDigit = true ∧ c.isDigit = true := by
  rw [fmtInt, if_neg (not_lt.mpr h0)]
  exact isDigitTriple_elim (zeroPad3_digits n.natAbs (by omega))

lemma latBin_bounds (lat : ℚ) (h1 : -90 ≤ lat) (h2 : lat ≤ 90) :
    0 ≤ latBin lat ∧ latBin lat < 100 := by
  have hnn := latBinRaw_nonneg lat
  have hle := latBinRaw_le lat h1 h2
  rw [latBin]
  split <;> omega

lemma lonBin_bounds (lon : ℚ) : 0 ≤ lonBin lon ∧ lonBin lon < 1000 := by
  have hnn := lonBinRaw_nonneg lon
  rw [lonBin]
  split <;> omega

lemma cell_data (ns ew p2 p3 : String) (nsc ewc a b c d e : Char)
    (h1 : ns.data = [nsc]) (h2 : ew.data = [ewc])
    (h3 : p2.data = [a, b]) (h4 : p3.data = [c, d, e]) :
    (ns ++ p2 ++ ew ++ p3).data = [nsc, a, b, ewc, c, d, e] := by
  simp [String.data_append, h1, h2, h3, h4]

/-- C4: on the full coordinate domain the resolver output is `base_dir`
joined with a 7-character cell matching `[NS]\d\x7b2\x7d[EW]\d\x7b3\x7d`, the
hemisphere letters follow the coordinate signs, and the function is pure:
equal inputs give equal outputs. -/
theorem point_to_prefix_format (base : String) (lat lon : ℚ)
    (hlat1 : -90 ≤ lat) (hlat2 : lat ≤ 90) (hlon1 : -180 ≤ lon) (hlon2 : lon ≤ 180) :
    ∃ cell : String,
      point_to_prefix base lat lon = osPathJoin base cell ∧
      isCellString cell = true ∧
      cell.data.head? = some (if 0 ≤ lat then 'N' else 'S') ∧
      cell.data[3]? = some (if 0 ≤ lon then 'E' else 'W') ∧
      ∀ lat2 lon2 : ℚ, lat2 = lat → lon2 = lon →
        point_to_prefix base lat2 lon2 = point_to_prefix base lat lon := by
  obtain ⟨hlatb0, hlatb⟩ := latBin_bounds lat hlat1 hlat2
  obtain ⟨hlonb0, hlonb⟩ := lonBin_bounds lon
  obtain ⟨a, b, hab, hda, hdb⟩ := fmtInt_two_digits hlatb0 hlatb
  obtain ⟨c, d, e, hcde, hdc, hdd, hde⟩ := fmtInt_three_digits hlonb0 hlonb
  refine ⟨(if 0 ≤ lat then "N" else "S") ++ fmtInt 2 (latBin lat) ++
            (if 0 ≤ lon then "E" else "W") ++ fmtInt 3 (lonBin lon), rfl, ?_, ?_, ?_, ?_⟩
  · have hdata := cell_data (if 0 ≤ lat then "N" else "S") (if 0 ≤ lon then "E" else "W")
      (fmtInt 2 (latBin lat)) (fmtInt 3 (lonBin lon))
      (if 0 ≤ lat then 'N' else 'S') (if 0 ≤ lon then 'E' else 'W') a b c d e
      (by split <;> rfl) (by split <;> rfl) hab hcde
    unfold isCellString
    rw [hdata]
    simp only [hda, hdb, hdc, hdd, hde, Bool.and_true, Bool.true_and, Bool.and_eq_true,
      Bool.or_eq_true, beq_iff_eq]
    constructor
    · split <;> simp
    · split <;> simp
  · rw [cell_data (if 0 ≤ lat then "N" else "S") (if 0 ≤ lon then "E" else "W")
      (fmtInt 2 (latBin lat)) (fmtInt 3 (lonBin lon))
      (if 0 ≤ lat then 'N' else 'S') (if 0 ≤ lon then 'E' else 'W') a b c d e
      (by split <;> rfl) (by split <;> rfl) hab hcde]
    rfl
  · rw [cell_data (if 0 ≤ lat then "N" else "S") (if 0 ≤ lon then "E" else "W")
      (fmtInt 2 (latBin lat)) (fmtInt 3 (lonBin lon))
      (if 0 ≤ lat then 'N' else 'S') (if 0 ≤ lon then 'E' else 'W') a b c d e
      (by split <;> rfl) (by split <;> rfl) hab hcde]
    rfl
  · intro lat2 lon2 hl1 hl2
    rw [hl1, hl2]

/-- Witness for C4 at base "d", latitude 12.3, longitude -45.6. -/
theorem point_to_prefix_format_witness :
    ∃ cell : String,
      point_to_prefix "d" (123/10 : ℚ) (-(456/10) : ℚ) = osPathJoin "d" cell ∧
      isCellString cell = true ∧
      cell.data.head? = some (if (0:ℚ) ≤ 123/10 then 'N' else 'S') ∧
      cell.data[3]? = some (if (0:ℚ) ≤ -(456/10) then 'E' else 'W') ∧
      ∀ lat2 lon2 : ℚ, lat2 = 123/10 → lon2 = -(456/10) →
        point_to_prefix "d" lat2 lon2 = point_to_prefix "d" (123/10 : ℚ) (-(456/10) : ℚ) :=
  point_to_prefix_format "d" (123/10 : ℚ) (-(456/10) : ℚ)
    (by norm_num) (by norm_num) (by norm_num) (by norm_num)

/-! ## Chunking lemmas for the orchestrator loop -/

lemma chunksGo_nil {α : Type} (fuel c : ℕ) : chunksGo fuel c ([] : List α) = [] := by
  cases fuel <;> rfl

lemma chunksGo_ne_nil {α : Type} (c fuel : ℕ) (x : α) (xs : List α)
    (hf : (x :: xs).length ≤ fuel) : chunksGo fuel c (x :: xs) ≠ [] := by
  cases fuel with
  | zero => simp at hf
  | succ fuel => simp [chunksGo]

lemma getLastD_default_irrel {α : Type} (r : α) (rs : List α) (d1 d2 : α) :
    (r :: rs).getLastD d1 = (r :: rs).getLastD d2 := by
  cases rs <;> rfl

lemma chunksGo_length {α : Type} (c : ℕ) (hc : 0 < c) :
    ∀ (fuel : ℕ) (l : List α), l.length ≤ fuel →
      (chunksGo fuel c l).length = (l.length + c - 1) / c := by
  intro fuel
  induction fuel with
  | zero =>
    intro l hf
    have hl : l = [] := List.eq_nil_of_length_eq_zero (Nat.le_zero.mp hf)
    subst hl
    rw [chunksGo_nil]
    simp only [List.length_nil]
    symm
    exact Nat.div_eq_of_lt (by omega)
  | succ fuel ih =>
    intro l hf
    cases l with
    | nil =>
      rw [chunksGo_nil]
      simp only [List.length_nil]
      symm
      exact Nat.div_eq_of_lt (by omega)
    | cons x xs =>
      simp only [List.length_cons] at hf
      simp only [chunksGo, List.length_cons]
      rw [ih ((x :: xs).drop c) (by simp only [List.length_drop, List.length_cons]; omega)]
      simp only [List.length_drop, List.length_cons]
      rcases Nat.lt_or_ge (xs.length + 1) c with hlt | hge
      · have h0 : xs.length + 1 - c = 0 := by omega
        rw [h0, Nat.div_eq_of_lt (by omega)]
        symm
        exact Nat.div_eq_of_lt_le (by omega) (by omega)
      · have h1 : xs.length + 1 - c + c - 1 = xs.length := by omega
        have h2 : xs.length + 1 + c - 1 = xs.length + c := by omega
        rw [h1, h2, Nat.add_div_right _ hc]

lemma chunksGo_flatten {α : Type} (c : ℕ) (hc : 0 < c) :
    ∀ (fuel : ℕ) (l : List α), l.length ≤ fuel → (chunksGo fuel c l).flatten = l := by
  intro fuel
  induction fuel with
  | zero =>
    intro l hf
    have hl : l = [] := List.eq_nil_of_length_eq_zero (Nat.le_zero.mp hf)
    subst hl
    rw [chunksGo_nil]
    rfl
  | succ fuel ih =>
    intro l hf
    cases l with
    | nil =>
      rw [chunksGo_nil]
      rfl
    | cons x xs =>
      simp only [List.length_cons] at hf
      simp only [chunksGo, List.flatten_cons]
      rw [ih ((x :: xs).drop c) (by simp only [List.length_drop, List.length_cons]; omega)]
      exact List.take_append_drop c (x :: xs)

lemma chunksGo_dropLast_length {α : Type} (c : ℕ) (hc : 0 < c) :
    ∀ (fuel : ℕ) (l : List α), l.length ≤ fuel →
      ∀ ch ∈ (chunksGo fuel c l).dropLast, ch.length = c := by
  intro fuel
  induction fuel with
  | zero =>
    intro l hf ch hch
    have hl : l = [] := List.eq_nil_of_length_eq_zero (Nat.le_zero.mp hf)
    subst hl
    rw [chunksGo_nil] at hch
    simp at hch
  | succ fuel ih =>
    intro l hf ch hch
    cases l with
    | nil =>
      rw [chunksGo_nil] at hch
      simp at hch
    | cons x xs =>
      simp only [List.length_cons] at hf
      simp only [chunksGo] at hch
      rcases hrest : chunksGo fuel c ((x :: xs).drop c) with _ | ⟨r, rs⟩
      · rw [hrest] at hch
        simp at hch
      · rw [hrest, List.dropLast_cons₂, List.mem_cons] at hch
        rcases hch with rfl | hch
        · have hdne : (x :: xs).drop c ≠ [] := by
            intro h0
            rw [h0, chunksGo_nil] at hrest
            cases hrest
          rw [ne_eq, List.drop_eq_nil_iff] at hdne
          simp only [List.length_cons] at hdne
          simp only [List.length_take, List.length_cons]
          omega
        · exact ih ((x :: xs).drop c)
            (by simp only [List.length_drop, List.length_cons]; omega) ch
            (by rw [hrest]; exact hch)

lemma chunksGo_getLast_length {α : Type} (c : ℕ) (hc : 0 < c) :
    ∀ (fuel : ℕ) (l : List α), l ≠ [] → l.length ≤ fuel →
      ((chunksGo fuel c l).getLastD []).length =
        if l.length % c = 0 then c else l.length % c := by
  intro fuel
  induction fuel with
  | zero =>
    intro l hne hf
    exact absurd (List.eq_nil_of_length_eq_zero (Nat.le_zero.mp hf)) hne
  | succ fuel ih =>
    intro l hne hf
    cases l with
    | nil => exact absurd rfl hne
    | cons x xs =>
      simp only [List.length_cons] at hf
      simp only [chunksGo, List.length_cons]
      rcases hrest : chunksGo fuel c ((x :: xs).drop c) with _ | ⟨r, rs⟩
      · have hdnil : (x :: xs).drop c = [] := by
          by_contra hdne
          obtain ⟨y, ys, hys⟩ := List.exists_cons_of_ne_nil hdne
          have hlen : (y :: ys).length ≤ fuel := by
            rw [← hys]
            simp only [List.length_drop, List.length_cons]
            omega
          exact chunksGo_ne_nil c fuel y ys hlen (by rw [← hys]; exact hrest)
        rw [List.drop_eq_nil_iff] at hdnil
        simp only [List.length_cons] at hdnil
        rw [List.getLastD_cons, List.getLastD_nil]
        simp only [List.length_take, List.length_cons]
        rcases Nat.lt_or_ge (xs.length + 1) c with hlt | hge
        · rw [Nat.mod_eq_of_lt hlt, if_neg (by omega)]
          omega
        · have heq : xs.length + 1 = c := by omega
          rw [heq, Nat.mod_self, if_pos rfl]
          omega
      · have hdne : (x :: xs).drop c ≠ [] := by
          intro h0
          rw [h0, chunksGo_nil] at hrest
          cases hrest
        have hIH := ih ((x :: xs).drop c) hdne
          (by simp only [List.length_drop, List.length_cons]; omega)
        rw [hrest] at hIH
        simp only [List.length_drop, List.length_cons] at hIH
        have hcL : c < xs.length + 1 := by
          rw [ne_eq, List.drop_eq_nil_iff] at hdne
          simp only [List.length_cons] at hdne
          omega
        rw [List.getLastD_cons, getLastD_default_irrel r rs ((x :: xs).take c) [], hIH]
        have hmod : (xs.length + 1) % c = (xs.length + 1 - c) % c := by
          conv_lhs => rw [show xs.length + 1 = c + (xs.length + 1 - c) by omega]
          rw [Nat.add_mod_left]
        rw [hmod]

/-- C5: for a job-id list of length `L` and positive chunk size `C`, the
run loop performs `ceil(L/C)` chunk iterations, every chunk but possibly
the last has exactly `C` elements, the final chunk has `L mod C` elements
(or `C` when `C` divides `L`), and concatenating the chunks in order gives
back exactly the original job-id list — each id dispatched exactly once. -/
theorem run_chunking (l : List String) (c : ℕ) (hc : 0 < c) :
    (chunks c l).length = (l.length + c - 1) / c ∧
    (∀ ch ∈ (chunks c l).dropLast, ch.length = c) ∧
    (l ≠ [] → ((chunks c l).getLastD []).length =
      if l.length % c = 0 then c else l.length % c) ∧
    (chunks c l).flatten = l :=
  ⟨chunksGo_length c hc l.length l le_rfl,
   chunksGo_dropLast_length c hc l.length l le_rfl,
   fun hne => chunksGo_getLast_length c hc l.length l hne le_rfl,
   chunksGo_flatten c hc l.length l le_rfl⟩

/-- Witness for C5: three job ids in chunks of two give two chunks, the
first full, the last of length 1 = 3 mod 2, flattening back to the list. -/
theorem run_chunking_witness :
    (chunks 2 ["a", "b", "c"]).length = (3 + 2 - 1) / 2 ∧
    (∀ ch ∈ (chunks 2 ["a", "b", "c"]).dropLast, ch.length = 2) ∧
    ((["a", "b", "c"] : List String) ≠ [] →
      ((chunks 2 ["a", "b", "c"]).getLastD []).length = if 3 % 2 = 0 then 2 else 3 % 2) ∧
    (chunks 2 ["a", "b", "c"]).flatten = ["a", "b", "c"] :=
  run_chunking ["a", "b", "c"] 2 (by norm_num)

/-! ## Unfolding equations for `copy_granule` -/

lemma copy_granule_err (env : Env) (store : Store) (job_id : String) (e : InfraError)
    (hjob : env.getJob job_id = .error e) :
    copy_granule env store job_id = .error e := by
  unfold copy_granule
  rw [hjob]

lemma copy_granule_ok_failed (env : Env) (store : Store) (job_id : String) (job : Job)
    (hjob : env.getJob job_id = .ok job) (hst : job.status = JobStatus.failed) :
    copy_granule env store job_id =
      .ok (["Processing " ++ jobRepr job,
            "WARNING: " ++ jobRepr job ++ " failed!"], store, []) := by
  unfold copy_granule
  rw [hjob]
  simp [hst]

lemma copy_granule_succeeded_eq (env : Env) (store : Store) (job_id : String) (job : Job)
    (f : JobFile) (rest : List JobFile) (lat lon : ℚ)
    (hjob : env.getJob job_id = .ok job)
    (hst : job.status = JobStatus.succeeded)
    (hfiles : job.files = f :: rest)
    (hmeta : env.readCenter f.url = .ok (lat, lon)) :
    copy_granule env store job_id =
      (if object_exists (bucketOf store env.target_bucket)
            (targetKey env.target_bucket_dir f lat lon) then
         .ok (["Processing " ++ jobRepr job,
               "Image center (lat, lon): (" ++ toString lat ++ ", " ++ toString lon ++ ")",
               "WARNING: " ++ env.target_bucket ++ "/" ++
                 targetKey env.target_bucket_dir f lat lon ++
                 " already exists! skipping " ++ jobRepr job],
              store, [StoreOp.existsCheck (targetKey env.target_bucket_dir f lat lon)])
       else
         match env.copyErr (targetKey env.target_bucket_dir f lat lon) with
         | some e => .error e
         | none =>
           .ok (["Processing " ++ jobRepr job,
                 "Image center (lat, lon): (" ++ toString lat ++ ", " ++ toString lon ++ ")",
                 "Copying " ++ f.s3.bucket ++ "/" ++ f.s3.key ++ " to " ++
                   env.target_bucket ++ "/" ++ targetKey env.target_bucket_dir f lat lon],
                storePut store (targetKey env.target_bucket_dir f lat lon)
                  (env.srcContent f.s3.bucket f.s3.key),
                [StoreOp.existsCheck (targetKey env.target_bucket_dir f lat lon),
                 StoreOp.copyOp f.s3.bucket f.s3.key
                   (targetKey env.target_bucket_dir f lat lon)])) := by
  unfold copy_granule
  rw [hjob]
  simp only [hst, hfiles, hmeta]
  simp [bucketOf]

lemma copy_granule_ok_running (env : Env) (store : Store) (job_id : String) (job : Job)
    (hjob : env.getJob job_id = .ok job) (hst : job.status = JobStatus.running) :
    copy_granule env store job_id =
      .ok (["Processing " ++ jobRepr job,
            "WARNING: Job is still running! Skipping " ++ jobRepr job], store, []) := by
  unfold copy_granule
  rw [hjob]
  simp [hst]

/-- C6: for a job whose resolved status is running, the task returns the
processing line plus a running-state warning, leaves the store unchanged,
and issues zero destination-store operations — no existence check and no
copy. -/
theorem copy_granule_running_frame (env : Env) (store : Store) (job_id : String) (job : Job)
    (hjob : env.getJob job_id = .ok job) (hst : job.status = JobStatus.running) :
    copy_granule env store job_id =
      .ok (["Processing " ++ jobRepr job,
            "WARNING: Job is still running! Skipping " ++ jobRepr job], store, []) :=
  copy_granule_ok_running env store job_id job hjob hst

/-- A running job used by several concrete executions below. -/
def jobRun : Job := { id := "jr", status := JobStatus.running, files := [] }

/-- A concrete environment whose tracker knows only the running job `jr`. -/
def envRun : Env :=
  { target_bucket := "its-live-data"
    target_bucket_dir := "velocity"
    getJob := fun job_id => if job_id = "jr" then .ok jobRun else .error InfraError.jobLookup
    readCenter := fun _ => .error InfraError.streamOpen
    srcContent := fun _ _ => ""
    copyErr := fun _ => none }

/-- Witness for C6: the concrete running job `jr` yields exactly the
processing line and the running warning, an unchanged store and no store
operations. -/
theorem copy_granule_running_frame_witness :
    copy_granule envRun [] "jr" =
      .ok (["Processing " ++ jobRepr jobRun,
            "WARNING: Job is still running! Skipping " ++ jobRepr jobRun], ([] : Store), []) :=
  copy_granule_running_frame envRun [] "jr" jobRun (by simp [envRun]) rfl

lemma copy_granule_succeeded_nofiles (env : Env) (store : Store) (job_id : String) (job : Job)
    (hjob : env.getJob job_id = .ok job)
    (hst : job.status = JobStatus.succeeded) (hfiles : job.files = []) :
    copy_granule env store job_id = .error InfraError.indexError := by
  unfold copy_granule
  rw [hjob]
  simp [hst, hfiles]

lemma copy_granule_succeeded_meta_err (env : Env) (store : Store) (job_id : String) (job : Job)
    (f : JobFile) (rest : List JobFile) (e : InfraError)
    (hjob : env.getJob job_id = .ok job)
    (hst : job.status = JobStatus.succeeded)
    (hfiles : job.files = f :: rest)
    (hmeta : env.readCenter f.url = .error e) :
    copy_granule env store job_id = .error e := by
  unfold copy_granule
  rw [hjob]
  simp [hst, hfiles, hmeta]

lemma object_exists_bucketOf (store : Store) (name key : String) :
    object_exists (bucketOf store name) key = (store.lookup key).isSome := by
  rw [object_exists, bucketOf]
  by_cases h : (store.lookup key).isSome <;> simp [h]

/-- C1: in every task execution that returns, a copy is issued only when
the existence check at the computed target key came back absent; when an
object already exists at the target key the task appends the
already-exists warning and does not copy, so no key present in the store
before the task ever changes its content. -/
theorem copy_granule_no_overwrite (env : Env) (store : Store) (job_id : String)
    (msgs : List String) (store' : Store) (ops : List StoreOp)
    (h : copy_granule env store job_id = .ok (msgs, store', ops)) :
    (∀ sb sk tk, StoreOp.copyOp sb sk tk ∈ ops →
      object_exists (bucketOf store env.target_bucket) tk = false) ∧
    (∀ job f rest lat lon,
      env.getJob job_id = .ok job → job.status = JobStatus.succeeded →
      job.files = f :: rest → env.readCenter f.url = .ok (lat, lon) →
      object_exists (bucketOf store env.target_bucket)
        (targetKey env.target_bucket_dir f lat lon) = true →
      ("WARNING: " ++ env.target_bucket ++ "/" ++ targetKey env.target_bucket_dir f lat lon ++
        " already exists! skipping " ++ jobRepr job) ∈ msgs ∧
      store' = store ∧ (∀ sb sk tk, StoreOp.copyOp sb sk tk ∉ ops)) ∧
    (∀ k v, store.lookup k = some v → store'.lookup k = some v) := by
  rcases hjob : env.getJob job_id with e | job
  · rw [copy_granule_err env store job_id e hjob] at h
    cases h
  · cases hst : job.status with
    | running =>
      rw [copy_granule_ok_running env store job_id job hjob hst] at h
      simp only [Except.ok.injEq, Prod.mk.injEq] at h
      obtain ⟨hm, hs, ho⟩ := h
      refine ⟨?_, ?_, ?_⟩
      · intro sb sk tk hmem
        rw [← ho] at hmem
        cases hmem
      · intro job' f rest lat lon hjob' hst' _ _ _
        simp only [Except.ok.injEq] at hjob'
        subst hjob'
        rw [hst] at hst'
        cases hst'
      · intro k v hk
        rw [← hs]
        exact hk
    | failed =>
      rw [copy_granule_ok_failed env store job_id job hjob hst] at h
      simp only [Except.ok.injEq, Prod.mk.injEq] at h
      obtain ⟨hm, hs, ho⟩ := h
      refine ⟨?_, ?_, ?_⟩
      · intro sb sk tk hmem
        rw [← ho] at hmem
        cases hmem
      · intro job' f rest lat lon hjob' hst' _ _ _
        simp only [Except.ok.injEq] at hjob'
        subst hjob'
        rw [hst] at hst'
        cases hst'
      · intro k v hk
        rw [← hs]
        exact hk
    | succeeded =>
      rcases hfiles : job.files with _ | ⟨f, rest⟩
      · rw [copy_granule_succeeded_nofiles env store job_id job hjob hst hfiles] at h
        cases h
      · rcases hmeta : env.readCenter f.url with e | ⟨lat, lon⟩
        · rw [copy_granule_succeeded_meta_err env store job_id job f rest e
            hjob hst hfiles hmeta] at h
          cases h
        · rw [copy_granule_succeeded_eq env store job_id job f rest lat lon
            hjob hst hfiles hmeta] at h
          by_cases hex : object_exists (bucketOf store env.target_bucket)
              (targetKey env.target_bucket_dir f lat lon) = true
          · rw [if_pos hex] at h
            simp only [Except.ok.injEq, Prod.mk.injEq] at h
            obtain ⟨hm, hs, ho⟩ := h
            refine ⟨?_, ?_, ?_⟩
            · intro sb sk tk hmem
              rw [← ho] at hmem
              simp at hmem
            · intro job' f' rest' lat' lon' hjob' hst' hfiles' hmeta' hex'
              simp only [Except.ok.injEq] at hjob'
              subst hjob'
              rw [hfiles] at hfiles'
              simp only [List.cons.injEq] at hfiles'
              obtain ⟨hf', hrest'⟩ := hfiles'
              subst hf'
              rw [hmeta] at hmeta'
              simp only [Except.ok.injEq, Prod.mk.injEq] at hmeta'
              obtain ⟨hl1, hl2⟩ := hmeta'
              subst hl1
              subst hl2
              refine ⟨?_, hs.symm, ?_⟩
              · rw [← hm]
                simp
              · intro sb sk tk hmem
                rw [← ho] at hmem
                simp at hmem
            · intro k v hk
              rw [← hs]
              exact hk
          · rw [if_neg hex] at h
            rw [Bool.not_eq_true] at hex
            rcases hcp : env.copyErr (targetKey env.target_bucket_dir f lat lon) with _ | e
            · rw [hcp] at h
              simp only [Except.ok.injEq, Prod.mk.injEq] at h
              obtain ⟨hm, hs, ho⟩ := h
              have hnone : store.lookup (targetKey env.target_bucket_dir f lat lon) = none := by
                rw [object_exists_bucketOf] at hex
                rcases hl : store.lookup (targetKey env.target_bucket_dir f lat lon) with _ | v
                · rfl
                · rw [hl] at hex
                  cases hex
              refine ⟨?_, ?_, ?_⟩
              · intro sb sk tk hmem
                rw [← ho] at hmem
                simp only [List.mem_cons, List.not_mem_nil, or_false] at hmem
                rcases hmem with hmem | hmem
                · cases hmem
                · obtain ⟨h1, h2, h3⟩ := StoreOp.copyOp.inj hmem
                  subst h3
                  exact hex
              · intro job' f' rest' lat' lon' hjob' hst' hfiles' hmeta' hex'
                simp only [Except.ok.injEq] at hjob'
                subst hjob'
                rw [hfiles] at hfiles'
                simp only [List.cons.injEq] at hfiles'
                obtain ⟨hf', hrest'⟩ := hfiles'
                subst hf'
                rw [hmeta] at hmeta'
                simp only [Except.ok.injEq, Prod.mk.injEq] at hmeta'
                obtain ⟨hl1, hl2⟩ := hmeta'
                subst hl1
                subst hl2
                rw [hex] at hex'
                cases hex'
              · intro k v hk
                rw [← hs, storePut]
                by_cases hkk : k = targetKey env.target_bucket_dir f lat lon
                · rw [hkk] at hk
                  rw [hnone] at hk
                  cases hk
                · rw [List.lookup_cons, beq_eq_false_iff_ne.mpr hkk]
                  exact hk
            · rw [hcp] at h
              cases h

/-! ## A concrete succeeded job and environment for witnesses -/

/-- A concrete output file of a succeeded job. -/
def fileC : JobFile := { url := "u1", filename := "g.nc", s3 := { bucket := "sb", key := "sk" } }

/-- A concrete succeeded job with one output file. -/
def jobSucc : Job := { id := "j1", status := JobStatus.succeeded, files := [fileC] }

/-- A concrete environment: tracker knows `j1`, metadata reads (5, 5),
source bytes are "bytes", copies never fail. -/
def envC : Env :=
  { target_bucket := "tb"
    target_bucket_dir := "d"
    getJob := fun job_id => if job_id = "j1" then .ok jobSucc else .error InfraError.jobLookup
    readCenter := fun _ => .ok (5, 5)
    srcContent := fun _ _ => "bytes"
    copyErr := fun _ => none }

lemma latBin_5 : latBin (5 : ℚ) = 0 := by
  norm_num [latBin, latBinRaw, npTrunc, abs_of_nonneg]

lemma lonBin_5 : lonBin (5 : ℚ) = 0 := by
  norm_num [lonBin, lonBinRaw, npTrunc, abs_of_nonneg]

lemma point_eval_5 : point_to_prefix "d" (5 : ℚ) (5 : ℚ) = "d/N00E000" := by
  simp only [ point_to_prefix, latBin_5, lonBin_5]
  rw [if_pos (show (0:ℚ) ≤ 5 by norm_num), if_pos (show (0:ℚ) ≤ 5 by norm_num)]
  decide

lemma targetKey_evalC : targetKey envC.target_bucket_dir fileC (5 : ℚ) (5 : ℚ) = "d/N00E000/g.nc" := by
  show targetKey "d" fileC (5 : ℚ) (5 : ℚ) = "d/N00E000/g.nc"
  rw [targetKey, point_eval_5]
  decide

/-- A store already holding an object at the computed target key. -/
def storeC : Store := [("d/N00E000/g.nc", "old")]

/-- The trace line reporting the granule centerpoint (5, 5). -/
def centerMsg5 : String :=
  "Image center (lat, lon): (" ++ toString (5 : ℚ) ++ ", " ++ toString (5 : ℚ) ++ ")"

lemma copy_granule_envC_eval :
    copy_granule envC storeC "j1" =
      .ok (["Processing " ++ jobRepr jobSucc, centerMsg5,
            "WARNING: " ++ envC.target_bucket ++ "/" ++
              targetKey envC.target_bucket_dir fileC 5 5 ++
              " already exists! skipping " ++ jobRepr jobSucc],
           storeC, [StoreOp.existsCheck (targetKey envC.target_bucket_dir fileC 5 5)]) := by
  rw [copy_granule_succeeded_eq envC storeC "j1" jobSucc fileC [] 5 5
      (by simp [envC]) rfl rfl (by simp [envC])]
  have hex : object_exists (bucketOf storeC envC.target_bucket)
      (targetKey envC.target_bucket_dir fileC 5 5) = true := by
    rw [object_exists_bucketOf, targetKey_evalC]
    decide
  rw [if_pos hex]
  rfl

/-- Witness for C1 at the concrete environment: the target key is present,
so the trace holds the already-exists warning, nothing is copied, and the
prior binding survives. -/
theorem copy_granule_no_overwrite_witness :
    (∀ sb sk tk, StoreOp.copyOp sb sk tk ∈
        [StoreOp.existsCheck (targetKey envC.target_bucket_dir fileC 5 5)] →
      object_exists (bucketOf storeC envC.target_bucket) tk = false) ∧
    (∀ job f rest lat lon,
      envC.getJob "j1" = .ok job → job.status = JobStatus.succeeded →
      job.files = f :: rest → envC.readCenter f.url = .ok (lat, lon) →
      object_exists (bucketOf storeC envC.target_bucket)
        (targetKey envC.target_bucket_dir f lat lon) = true →
      ("WARNING: " ++ envC.target_bucket ++ "/" ++ targetKey envC.target_bucket_dir f lat lon ++
        " already exists! skipping " ++ jobRepr job) ∈
        ["Processing " ++ jobRepr jobSucc, centerMsg5,
         "WARNING: " ++ envC.target_bucket ++ "/" ++
           targetKey envC.target_bucket_dir fileC 5 5 ++
           " already exists! skipping " ++ jobRepr jobSucc] ∧
      storeC = storeC ∧
      (∀ sb sk tk, StoreOp.copyOp sb sk tk ∉
        [StoreOp.existsCheck (targetKey envC.target_bucket_dir fileC 5 5)])) ∧
    (∀ k v, storeC.lookup k = some v → storeC.lookup k = some v) :=
  copy_granule_no_overwrite envC storeC "j1" _ storeC _ copy_granule_envC_eval

/-- C7: running the task twice for the same succeeded job against the same
destination store yields the copying trace line on the first run and the
already-present warning on the second; the second run returns the first
run's store unchanged, so the destination object's content after both runs
is exactly its content after the first run. -/
theorem copy_granule_idempotent (env : Env) (store : Store) (job_id : String) (job : Job)
    (f : JobFile) (rest : List JobFile) (lat lon : ℚ)
    (hjob : env.getJob job_id = .ok job)
    (hst : job.status = JobStatus.succeeded)
    (hfiles : job.files = f :: rest)
    (hmeta : env.readCenter f.url = .ok (lat, lon))
    (habsent : store.lookup (targetKey env.target_bucket_dir f lat lon) = none)
    (hcopy : env.copyErr (targetKey env.target_bucket_dir f lat lon) = none) :
    ∃ m1 s1 o1 m2 o2,
      copy_granule env store job_id = .ok (m1, s1, o1) ∧
      ("Copying " ++ f.s3.bucket ++ "/" ++ f.s3.key ++ " to " ++ env.target_bucket ++ "/" ++
        targetKey env.target_bucket_dir f lat lon) ∈ m1 ∧
      copy_granule env s1 job_id = .ok (m2, s1, o2) ∧
      ("WARNING: " ++ env.target_bucket ++ "/" ++ targetKey env.target_bucket_dir f lat lon ++
        " already exists! skipping " ++ jobRepr job) ∈ m2 ∧
      s1.lookup (targetKey env.target_bucket_dir f lat lon) =
        some (env.srcContent f.s3.bucket f.s3.key) := by
  have hex1 : object_exists (bucketOf store env.target_bucket)
      (targetKey env.target_bucket_dir f lat lon) = false := by
    rw [object_exists_bucketOf, habsent]
    rfl
  have h1 : copy_granule env store job_id =
      .ok (["Processing " ++ jobRepr job,
            "Image center (lat, lon): (" ++ toString lat ++ ", " ++ toString lon ++ ")",
            "Copying " ++ f.s3.bucket ++ "/" ++ f.s3.key ++ " to " ++
              env.target_bucket ++ "/" ++ targetKey env.target_bucket_dir f lat lon],
           storePut store (targetKey env.target_bucket_dir f lat lon)
             (env.srcContent f.s3.bucket f.s3.key),
           [StoreOp.existsCheck (targetKey env.target_bucket_dir f lat lon),
            StoreOp.copyOp f.s3.bucket f.s3.key
              (targetKey env.target_bucket_dir f lat lon)]) := by
    rw [copy_granule_succeeded_eq env store job_id job f rest lat lon hjob hst hfiles hmeta,
      if_neg (by simp [hex1]), hcopy]
  have hlook : (storePut store (targetKey env.target_bucket_dir f lat lon)
      (env.srcContent f.s3.bucket f.s3.key)).lookup
        (targetKey env.target_bucket_dir f lat lon) =
      some (env.srcContent f.s3.bucket f.s3.key) := by
    rw [storePut, List.lookup_cons, beq_self_eq_true]
  have hex2 : object_exists
      (bucketOf (storePut store (targetKey env.target_bucket_dir f lat lon)
        (env.srcContent f.s3.bucket f.s3.key)) env.target_bucket)
      (targetKey env.target_bucket_dir f lat lon) = true := by
    rw [object_exists_bucketOf, hlook]
    rfl
  have h2 : copy_granule env (storePut store (targetKey env.target_bucket_dir f lat lon)
      (env.srcContent f.s3.bucket f.s3.key)) job_id =
      .ok (["Processing " ++ jobRepr job,
            "Image center (lat, lon): (" ++ toString lat ++ ", " ++ toString lon ++ ")",
            "WARNING: " ++ env.target_bucket ++ "/" ++
              targetKey env.target_bucket_dir f lat lon ++
              " already exists! skipping " ++ jobRepr job],
           storePut store (targetKey env.target_bucket_dir f lat lon)
             (env.srcContent f.s3.bucket f.s3.key),
           [StoreOp.existsCheck (targetKey env.target_bucket_dir f lat lon)]) := by
    rw [copy_granule_succeeded_eq env _ job_id job f rest lat lon hjob hst hfiles hmeta,
      if_pos hex2]
  exact ⟨_, _, _, _, _, h1, by simp, h2, by simp, hlook⟩

/-- Witness for C7: the concrete succeeded job `j1` against the empty
store — first run copies, second run warns and changes nothing. -/
theorem copy_granule_idempotent_witness :
    ∃ m1 s1 o1 m2 o2,
      copy_granule envC [] "j1" = .ok (m1, s1, o1) ∧
      ("Copying " ++ fileC.s3.bucket ++ "/" ++ fileC.s3.key ++ " to " ++
        envC.target_bucket ++ "/" ++ targetKey envC.target_bucket_dir fileC 5 5) ∈ m1 ∧
      copy_granule envC s1 "j1" = .ok (m2, s1, o2) ∧
      ("WARNING: " ++ envC.target_bucket ++ "/" ++ targetKey envC.target_bucket_dir fileC 5 5 ++
        " already exists! skipping " ++ jobRepr jobSucc) ∈ m2 ∧
      s1.lookup (targetKey envC.target_bucket_dir fileC 5 5) =
        some (envC.srcContent fileC.s3.bucket fileC.s3.key) :=
  copy_granule_idempotent envC [] "j1" jobSucc fileC [] 5 5
    (by simp [envC]) rfl rfl (by simp [envC]) rfl rfl

/-- An environment in which the job-tracking service is unreachable: every
lookup raises. -/
def envDown : Env :=
  { target_bucket := "tb"
    target_bucket_dir := "d"
    getJob := fun _ => .error InfraError.jobLookup
    readCenter := fun _ => .error InfraError.streamOpen
    srcContent := fun _ _ => ""
    copyErr := fun _ => none }

/-- Counterexample to C8 as stated: `copy_granule` has no exception
handler, so when the job lookup raises, the task does not return a trace —
the exception escapes the task. -/
theorem copy_granule_raises_counterexample :
    copy_granule envDown [] "j1" = .error InfraError.jobLookup := rfl

/-- C8 (amended): the task returns normally with an ordered trace headed
by the processing line for every outcome reached without a collaborator
exception — running, failed, succeeded with the target already present,
and succeeded with a completed copy; collaborator exceptions (job lookup,
metadata stream, copy) are not captured in the trace but escape the task. -/
theorem copy_granule_returns_trace (env : Env) (store : Store) (job_id : String) (job : Job)
    (hjob : env.getJob job_id = .ok job)
    (hok : job.status = JobStatus.running ∨ job.status = JobStatus.failed ∨
      (job.status = JobStatus.succeeded ∧ ∃ f rest lat lon, job.files = f :: rest ∧
        env.readCenter f.url = .ok (lat, lon) ∧
        (store.lookup (targetKey env.target_bucket_dir f lat lon) ≠ none ∨
         env.copyErr (targetKey env.target_bucket_dir f lat lon) = none))) :
    ∃ msgs store' ops, copy_granule env store job_id = .ok (msgs, store', ops) ∧
      msgs.head? = some ("Processing " ++ jobRepr job) := by
  rcases hok with hst | hst | ⟨hst, f, rest, lat, lon, hfiles, hmeta, hchk⟩
  · exact ⟨_, _, _, copy_granule_ok_running env store job_id job hjob hst, rfl⟩
  · exact ⟨_, _, _, copy_granule_ok_failed env store job_id job hjob hst, rfl⟩
  · rw [copy_granule_succeeded_eq env store job_id job f rest lat lon hjob hst hfiles hmeta]
    by_cases hex : object_exists (bucketOf store env.target_bucket)
        (targetKey env.target_bucket_dir f lat lon) = true
    · rw [if_pos hex]
      exact ⟨_, _, _, rfl, rfl⟩
    · rw [if_neg hex]
      have hnone : env.copyErr (targetKey env.target_bucket_dir f lat lon) = none := by
        rcases hchk with hchk | hchk
        · exfalso
          apply hex
          rw [object_exists_bucketOf]
          exact Option.ne_none_iff_isSome.mp hchk
        · exact hchk
      rw [hnone]
      exact ⟨_, _, _, rfl, rfl⟩

/-- Witness for the amended C8 at the concrete running job. -/
theorem copy_granule_returns_trace_witness :
    ∃ msgs store' ops, copy_granule envRun [] "jr" = .ok (msgs, store', ops) ∧
      msgs.head? = some ("Processing " ++ jobRepr jobRun) :=
  copy_granule_returns_trace envRun [] "jr" jobRun (by simp [envRun]) (Or.inl rfl)

/-- Counterexample to C9 as stated: in the chunk of the two jobs `jr`
(whose task returns a trace) and `bad` (whose task raises), the
orchestrator run returns the escaped exception and produces no trace
collection at all — the successful sibling trace is not logged. -/
theorem run_isolation_counterexample :
    copy_granule envRun [] "jr" =
      .ok (["Processing " ++ jobRepr jobRun,
            "WARNING: Job is still running! Skipping " ++ jobRepr jobRun], ([] : Store), []) ∧
    run envRun [] ["jr", "bad"] 2 = .error InfraError.jobLookup :=
  ⟨rfl, rfl⟩

lemma runChunks_error_of_mem (env : Env) (store : Store) (cs : List (List String))
    (chunk : List String) (e1 : InfraError)
    (hmem : chunk ∈ cs) (herr : computeChunk env store chunk = .error e1) :
    ∃ e2, runChunks env store cs = .error e2 := by
  induction cs with
  | nil => cases hmem
  | cons ch chs ih =>
    rcases List.mem_cons.mp hmem with rfl | hmem2
    · exact ⟨e1, by rw [runChunks, herr]⟩
    · rcases hc : computeChunk env store ch with ec | ts
      · exact ⟨ec, by rw [runChunks, hc]⟩
      · obtain ⟨e2, h2⟩ := ih hmem2
        exact ⟨e2, by rw [runChunks, hc, h2]⟩

/-- C9 (amended): when any task of a chunk raises, the chunk computation
propagates an exception instead of returning the sibling traces, and the
whole run aborts with an exception — the N-1 successful traces of that
chunk are not logged. -/
theorem run_chunk_failure_aborts (env : Env) (store : Store) (job_ids : List String)
    (c : ℕ) (chunk : List String) (job_id : String) (e : InfraError)
    (hchunk : chunk ∈ chunks c job_ids) (hmem : job_id ∈ chunk)
    (herr : copy_granule env store job_id = .error e) :
    (∃ e1, computeChunk env store chunk = .error e1) ∧
    (∃ e2, run env store job_ids c = .error e2) := by
  have hcc : ∃ e1, computeChunk env store chunk = .error e1 := by
    clear hchunk
    induction chunk with
    | nil => cases hmem
    | cons x xs ih =>
      rcases List.mem_cons.mp hmem with rfl | hmem'
      · exact ⟨e, by rw [computeChunk, herr]⟩
      · rcases hx : copy_granule env store x with ex | r
        · exact ⟨ex, by rw [computeChunk, hx]⟩
        · obtain ⟨e1, h1⟩ := ih hmem'
          exact ⟨e1, by rw [computeChunk, hx, h1]⟩
  obtain ⟨e1, h1⟩ := hcc
  exact ⟨⟨e1, h1⟩, by
    rw [run]
    exact runChunks_error_of_mem env store (chunks c job_ids) chunk e1 hchunk h1⟩

/-- Witness for the amended C9 at the concrete chunk of `jr` (returns) and
`bad` (raises): the chunk computation and the whole run abort. -/
theorem run_chunk_failure_aborts_witness :
    (∃ e1, computeChunk envRun [] ["jr", "bad"] = .error e1) ∧
    (∃ e2, run envRun [] ["jr", "bad"] 2 = .error e2) :=
  run_chunk_failure_aborts envRun [] ["jr", "bad"] 2 ["jr", "bad"] "bad"
    InfraError.jobLookup (by simp [chunks, chunksGo]) (by simp) rfl
